import Mathlib

/-!
Verification of the hardware capability detection and optimization decision
engine of the vmware-vmmon-vmnet-linux repository (scripts/detect_hardware.py),
via a shallow embedding of its data model and pure decision logic in Lean.

Machine integers in the Python source are unbounded, so they are modelled by
Int; Python floats that only ever hold decimal values and are compared against
integer thresholds are modelled by Rat; Optional values by Option; exceptions
at the top level by an explicit outcome type.
-/

namespace VMwareDetect

/-- CPU feature detection and capabilities (dataclass CPUCapabilities). -/
structure CPUCapabilities where
  model_name : String
  architecture : String
  cores : Int
  threads : Int
  base_freq_mhz : Rat
  max_freq_mhz : Rat
  cache_l1d : String
  cache_l1i : String
  cache_l2 : String
  cache_l3 : String
  has_sse42 : Bool
  has_avx : Bool
  has_avx2 : Bool
  has_avx512f : Bool
  has_avx512dq : Bool
  has_avx512bw : Bool
  has_avx512vl : Bool
  has_aes_ni : Bool
  has_sha_ni : Bool
  has_rdrand : Bool
  has_rdseed : Bool
  has_vmx : Bool
  has_svm : Bool
  has_ept : Bool
  has_npt : Bool
  has_tsx : Bool
  has_bmi1 : Bool
  has_bmi2 : Bool
  has_adx : Bool
  has_clflushopt : Bool
  has_clwb : Bool
  cpu_generation : String
  microarchitecture : String
deriving Repr, DecidableEq

/-- Intel VT-x / AMD-V capabilities (dataclass VirtualizationCapabilities). -/
structure VirtualizationCapabilities where
  technology : String
  enabled : Bool
  ept_supported : Bool
  vpid_supported : Bool
  ept_1gb_pages : Bool
  ept_2mb_pages : Bool
  ept_ad_bits : Bool
  unrestricted_guest : Bool
  posted_interrupts : Bool
  vmfunc_supported : Bool
  npt_supported : Bool
  decode_assists : Bool
  flush_by_asid : Bool
  estimated_vm_switch_overhead_ns : Int
  estimated_memory_overhead_percent : Rat
deriving Repr, DecidableEq

/-- NVMe/SSD device information (dataclass StorageDevice). -/
structure StorageDevice where
  device_name : String
  model : String
  size_gb : Rat
  device_type : String
  pcie_generation : Option Int
  pcie_lanes : Option Int
  max_bandwidth_mbps : Option Int
  queue_depth : Option Int
  num_queues : Option Int
  read_iops : Option Int
  write_iops : Option Int
  read_bandwidth_mbps : Option Int
  write_bandwidth_mbps : Option Int
deriving Repr, DecidableEq

/-- System memory information (dataclass MemoryInfo). -/
structure MemoryInfo where
  total_gb : Rat
  available_gb : Rat
  speed_mhz : Int
  type : String
  channels : Int
  hugepages_2mb_supported : Bool
  hugepages_1gb_supported : Bool
  hugepages_2mb_available : Int
  hugepages_1gb_available : Int
  numa_nodes : Int
  numa_enabled : Bool
  estimated_bandwidth_gbps : Rat
deriving Repr, DecidableEq

/-- GPU information (dataclass GPUInfo). -/
structure GPUInfo where
  vendor : String
  model : String
  vram_gb : Rat
  pcie_generation : Int
  pcie_lanes : Int
  driver_version : String
  cuda_version : Option String
  supports_vgpu : Bool
deriving Repr, DecidableEq

/-- Complete system hardware capabilities (dataclass SystemCapabilities). -/
structure SystemCapabilities where
  cpu : CPUCapabilities
  virtualization : VirtualizationCapabilities
  storage_devices : List StorageDevice
  memory : MemoryInfo
  gpu : Option GPUInfo
  optimization_score : Int
  recommended_mode : String
  estimated_improvement_percent : Int × Int
deriving Repr, DecidableEq

/-- Does the character list start with the given pattern list. -/
def charsStartWith : List Char → List Char → Bool
  | _, [] => true
  | [], _ :: _ => false
  | c :: cs, d :: ds => c == d && charsStartWith cs ds

/-- Does the character list contain the pattern list as a contiguous run. -/
def charsContain : List Char → List Char → Bool
  | [], needle => needle.isEmpty
  | c :: rest, needle => charsStartWith (c :: rest) needle || charsContain rest needle

/-- Python substring containment test (the in operator on strings). -/
def strContains (hay needle : String) : Bool :=
  charsContain hay.data needle.data

/-- Longest leading run of decimal digits of a character list. -/
def takeDigits : List Char → List Char
  | [] => []
  | c :: cs => if c.isDigit then c :: takeDigits cs else []

/-- Numeric value of a list of decimal digit characters. -/
def digitsVal (ds : List Char) : Nat :=
  ds.foldl (fun acc c => acc * 10 + (c.toNat - 48)) 0

/-- First occurrence of letter x immediately followed by one or more digits;
returns the value of the maximal digit run, as a Python re.search for the
pattern x followed by a digit group would. -/
def findXDigits : List Char → Option Nat
  | [] => none
  | c :: cs =>
    if c == 'x' then
      let ds := takeDigits cs
      if ds.isEmpty then findXDigits cs else some (digitsVal ds)
    else findXDigits cs

/-- HardwareDetector.detect_virtualization, as a function of the CPU flag list
(self.cpu_flags, parsed from /proc/cpuinfo) and the CPUCapabilities record.
Branches: Intel VT-x when the vmx flag is set, else AMD-V when svm is set,
else no virtualization. -/
def detect_virtualization (cpuFlags : List String) (cpu : CPUCapabilities) :
    VirtualizationCapabilities :=
  if cpu.has_vmx then
    let ept1gb := cpu.has_ept && cpuFlags.contains "pdpe1gb"
    let overhead : Int × Rat :=
      if strContains cpu.cpu_generation "11th Gen" ||
         strContains cpu.cpu_generation "12th Gen" then (150, 2)
      else if strContains cpu.cpu_generation "10th Gen" then (200, 3)
      else (300, 5)
    { technology := "Intel VT-x"
      enabled := cpu.has_vmx
      ept_supported := cpu.has_ept
      vpid_supported := cpuFlags.contains "vpid"
      ept_1gb_pages := ept1gb
      ept_2mb_pages := cpu.has_ept
      ept_ad_bits := cpuFlags.contains "ept_ad"
      unrestricted_guest := cpuFlags.contains "unrestricted_guest" || cpu.has_ept
      posted_interrupts := cpuFlags.contains "posted_intr"
      vmfunc_supported := cpuFlags.contains "vmfunc"
      npt_supported := false
      decode_assists := false
      flush_by_asid := false
      estimated_vm_switch_overhead_ns := overhead.1
      estimated_memory_overhead_percent := overhead.2 }
  else if cpu.has_svm then
    { technology := "AMD-V"
      enabled := cpu.has_svm
      ept_supported := false
      vpid_supported := false
      ept_1gb_pages := false
      ept_2mb_pages := false
      ept_ad_bits := false
      unrestricted_guest := false
      posted_interrupts := false
      vmfunc_supported := false
      npt_supported := cpu.has_npt
      decode_assists := cpuFlags.contains "decode_assists"
      flush_by_asid := cpuFlags.contains "flush_by_asid"
      estimated_vm_switch_overhead_ns := 250
      estimated_memory_overhead_percent := 3 }
  else
    { technology := "None"
      enabled := false
      ept_supported := false
      vpid_supported := false
      ept_1gb_pages := false
      ept_2mb_pages := false
      ept_ad_bits := false
      unrestricted_guest := false
      posted_interrupts := false
      vmfunc_supported := false
      npt_supported := false
      decode_assists := false
      flush_by_asid := false
      estimated_vm_switch_overhead_ns := 1000
      estimated_memory_overhead_percent := 10 }

/-- Link-speed decoding of HardwareDetector._detect_nvme_pcie: substring tests
against the sysfs current_link_speed text, in source order (16, then 32,
then 8 GT/s); any other speed yields none. -/
def decode_link_speed (speed : String) : Option Int :=
  if strContains speed "16.0 GT/s" || strContains speed "16 GT/s" then some 4
  else if strContains speed "32.0 GT/s" || strContains speed "32 GT/s" then some 5
  else if strContains speed "8.0 GT/s" || strContains speed "8 GT/s" then some 3
  else none

/-- Link-speed decoding of HardwareDetector._detect_gpu_pcie: same substring
tests as the NVMe path plus a trailing 5 GT/s test mapping to generation 2. -/
def decode_gpu_link_speed (speed : String) : Option Int :=
  if strContains speed "16.0 GT/s" || strContains speed "16 GT/s" then some 4
  else if strContains speed "32.0 GT/s" || strContains speed "32 GT/s" then some 5
  else if strContains speed "8.0 GT/s" || strContains speed "8 GT/s" then some 3
  else if strContains speed "5.0 GT/s" || strContains speed "5 GT/s" then some 2
  else none

/-- Lane-count decoding of HardwareDetector._detect_nvme_pcie: re.search for
an x-digits group in the sysfs current_link_width text. -/
def decode_link_width (width : String) : Option Int :=
  (findXDigits width.data).map (fun n => (n : Int))

/-- HardwareDetector._detect_nvme_pcie: a missing sysfs attribute (modelled as
none) leaves the corresponding field none. -/
def detect_nvme_pcie (speedFile widthFile : Option String) :
    Option Int × Option Int :=
  let gen := match speedFile with
    | none => none
    | some s => decode_link_speed s
  let lanes := match widthFile with
    | none => none
    | some w => decode_link_width w
  (gen, lanes)

/-- The per-lane bandwidth dict of detect_storage with its .get default of 0:
3 maps to 985, 4 to 1969, 5 to 3938 MB/s, anything else to 0. -/
def bandwidthTable (gen : Int) : Int :=
  if gen = 3 then 985 else if gen = 4 then 1969 else if gen = 5 then 3938 else 0

/-- Python truthiness of an Optional int: falsy when None or 0. -/
def pyTruthy : Option Int → Bool
  | none => false
  | some n => n != 0

/-- The max_bandwidth computation of detect_storage: set only when the Python
condition (pcie_gen and pcie_lanes) is truthy, to the table value times the
lane count. -/
def nvme_max_bandwidth (gen lanes : Option Int) : Option Int :=
  if pyTruthy gen && pyTruthy lanes then
    some (bandwidthTable (gen.getD 0) * lanes.getD 0)
  else none

/-- Construction of one StorageDevice by detect_storage from the sysfs
attribute contents of an NVMe block device. -/
def mk_storage_device (device_name model : String) (size_gb : Rat)
    (speedFile widthFile : Option String) (qd nq : Option Int) : StorageDevice :=
  let link := detect_nvme_pcie speedFile widthFile
  { device_name := device_name
    model := model
    size_gb := size_gb
    device_type := "nvme"
    pcie_generation := link.1
    pcie_lanes := link.2
    max_bandwidth_mbps := nvme_max_bandwidth link.1 link.2
    queue_depth := qd
    num_queues := nq
    read_iops := none
    write_iops := none
    read_bandwidth_mbps := none
    write_bandwidth_mbps := none }

/-- The nvme_count of calculate_optimization_score: number of storage devices
whose device_type is nvme. -/
def nvmeCount (storage : List StorageDevice) : Nat :=
  (storage.filter (fun d => d.device_type == "nvme")).length

/-- The score accumulation of calculate_optimization_score, term by term in
source order (CPU features, virtualization, storage, memory). -/
def optScoreRaw (cpu : CPUCapabilities) (virt : VirtualizationCapabilities)
    (storage : List StorageDevice) (memory : MemoryInfo) : Int :=
  (0 : Int)
  + (if cpu.has_avx512f then 15 else if cpu.has_avx2 then 10
     else if cpu.has_avx then 5 else 0)
  + (if cpu.has_aes_ni then 10 else 0)
  + (if cpu.has_bmi1 && cpu.has_bmi2 then 5 else 0)
  + (if cpu.cores ≥ 8 then 10 else if cpu.cores ≥ 4 then 5 else 0)
  + (if virt.enabled then 10 else 0)
  + (if virt.ept_supported then 10 else 0)
  + (if virt.ept_1gb_pages then 5 else 0)
  + (if virt.vpid_supported then 5 else 0)
  + (if 2 ≤ nvmeCount storage then 15 else if nvmeCount storage = 1 then 10 else 0)
  + (if memory.total_gb ≥ 64 then 10 else if memory.total_gb ≥ 32 then 5 else 0)
  + (if memory.hugepages_1gb_supported then 5 else 0)

/-- HardwareDetector.calculate_optimization_score: the accumulated score and
the recommendation thresholds of the source. -/
def calculate_optimization_score (cpu : CPUCapabilities)
    (virt : VirtualizationCapabilities) (storage : List StorageDevice)
    (memory : MemoryInfo) : Int × String × (Int × Int) :=
  let score := optScoreRaw cpu virt storage memory
  if score ≥ 70 then (score, "optimized", (30, 45))
  else if score ≥ 50 then (score, "optimized", (20, 35))
  else (score, "vanilla", (10, 20))

/-- The CPU-features category of the score (40 points max). -/
def cpuPoints (cpu : CPUCapabilities) : Int :=
  (if cpu.has_avx512f then 15 else if cpu.has_avx2 then 10
   else if cpu.has_avx then 5 else 0)
  + (if cpu.has_aes_ni then 10 else 0)
  + (if cpu.has_bmi1 && cpu.has_bmi2 then 5 else 0)
  + (if cpu.cores ≥ 8 then 10 else if cpu.cores ≥ 4 then 5 else 0)

/-- The virtualization category of the score (30 points max), exactly the four
additive tests of the source: enabled, ept_supported, ept_1gb_pages,
vpid_supported. -/
def virtPoints (v : VirtualizationCapabilities) : Int :=
  (if v.enabled then 10 else 0)
  + (if v.ept_supported then 10 else 0)
  + (if v.ept_1gb_pages then 5 else 0)
  + (if v.vpid_supported then 5 else 0)

/-- The storage category of the score (15 points max). -/
def storagePoints (storage : List StorageDevice) : Int :=
  if 2 ≤ nvmeCount storage then 15 else if nvmeCount storage = 1 then 10 else 0

/-- The memory category of the score (15 points max). -/
def memoryPoints (m : MemoryInfo) : Int :=
  (if m.total_gb ≥ 64 then 10 else if m.total_gb ≥ 32 then 5 else 0)
  + (if m.hugepages_1gb_supported then 5 else 0)

/-- Modelled from the spec: the virtualization category as the specification
words it, awarding the second 10 points for EPT or NPT support alike. Used
only to compare the specification against the source scorer. -/
def specVirtPoints (v : VirtualizationCapabilities) : Int :=
  (if v.enabled then 10 else 0)
  + (if v.ept_supported || v.npt_supported then 10 else 0)
  + (if v.ept_1gb_pages then 5 else 0)
  + (if v.vpid_supported then 5 else 0)

/-- The flags dict of HardwareDetector.generate_compilation_flags. -/
structure CompilationFlags where
  base_optimization : String
  architecture_flags : List String
  feature_flags : List String
  link_flags : List String
  make_flags : List (String × String)
deriving Repr, DecidableEq

/-- HardwareDetector.generate_compilation_flags: base level, architecture
flags, feature flags (conditional ones first, then the unconditional block,
then LTO), link flags, and the fixed-key make-variable mapping. -/
def generate_compilation_flags (cpu : CPUCapabilities)
    (virt : VirtualizationCapabilities) (memory : MemoryInfo) :
    CompilationFlags :=
  let base := if cpu.has_avx512f || cpu.has_avx2 then "-O3" else "-O2"
  let arch :=
    if cpu.has_avx512f then
      ["-march=native", "-mtune=native", "-mavx512f", "-mavx512dq", "-mfma"]
    else if cpu.has_avx2 then
      ["-march=native", "-mtune=native", "-mavx2", "-mfma"]
    else
      ["-mtune=generic"]
  let feat :=
    (if cpu.has_aes_ni then ["-maes"] else [])
    ++ (if cpu.has_bmi2 then ["-mbmi", "-mbmi2"] else [])
    ++ (if cpu.has_sha_ni then ["-msha"] else [])
    ++ ["-ffast-math", "-funroll-loops", "-fomit-frame-pointer",
        "-fno-strict-aliasing", "-fno-common"]
    ++ (if cpu.cores ≥ 4 then ["-flto"] else [])
  let link := if cpu.cores ≥ 4 then ["-flto"] else []
  { base_optimization := base
    architecture_flags := arch
    feature_flags := feat
    link_flags := link
    make_flags :=
      [("VMWARE_OPTIMIZE", if cpu.has_avx2 || cpu.has_avx512f then "1" else "0"),
       ("HAS_VTX_EPT", if virt.ept_supported then "1" else "0"),
       ("HAS_VPID", if virt.vpid_supported then "1" else "0"),
       ("HAS_AVX512", if cpu.has_avx512f then "1" else "0"),
       ("HAS_AVX2", if cpu.has_avx2 then "1" else "0"),
       ("HAS_AES_NI", if cpu.has_aes_ni then "1" else "0"),
       ("ENABLE_HUGEPAGES", if memory.hugepages_1gb_supported then "1" else "0")] }

/-- The token list flattened into optimized_cflags by main: base optimization
level, then architecture flags, then feature flags. -/
def cflagsTokens (f : CompilationFlags) : List String :=
  f.base_optimization :: (f.architecture_flags ++ f.feature_flags)

/-- The optimized_cflags string assembled by main (space-joined). -/
def optimized_cflags (f : CompilationFlags) : String :=
  String.intercalate " " (cflagsTokens f)

/-- The optimized_ldflags string assembled by main (link flags only). -/
def optimized_ldflags (f : CompilationFlags) : String :=
  String.intercalate " " f.link_flags

/-- The SystemCapabilities record built at the end of detect_all, together
with the compilation flags: score, mode and improvement come from
calculate_optimization_score on (cpu, virt, storage, memory); the flags come
from generate_compilation_flags on (cpu, virt, memory). -/
def mk_system_capabilities (cpu : CPUCapabilities)
    (virt : VirtualizationCapabilities) (storage : List StorageDevice)
    (memory : MemoryInfo) (gpu : Option GPUInfo) :
    SystemCapabilities × CompilationFlags :=
  let r := calculate_optimization_score cpu virt storage memory
  let comp := generate_compilation_flags cpu virt memory
  ({ cpu := cpu
     virtualization := virt
     storage_devices := storage
     memory := memory
     gpu := gpu
     optimization_score := r.1
     recommended_mode := r.2.1
     estimated_improvement_percent := r.2.2 }, comp)

/-- The minimal fallback artifact written by main on a top-level detection
failure. -/
structure MinimalReport where
  error : String
  recommended_mode : String
  optimization_score : Int
deriving Repr, DecidableEq

/-- The full report artifact written by main on success. -/
structure FullReport where
  capabilities : SystemCapabilities
  compilation_flags : CompilationFlags
  optimized_cflags : String
  optimized_ldflags : String
  make_variables : List (String × String)
deriving Repr, DecidableEq

/-- The artifact main leaves in the output file: either the full report or the
minimal fallback. -/
inductive ReportArtifact where
  | full : FullReport → ReportArtifact
  | minimal : MinimalReport → ReportArtifact
deriving Repr, DecidableEq

/-- Outcome of the detection pipeline inside the try block of main: either the
detected capabilities and flags, or a top-level structural failure carrying
the exception text. -/
inductive DetectOutcome where
  | ok : SystemCapabilities → CompilationFlags → DetectOutcome
  | failure : String → DetectOutcome
deriving Repr, DecidableEq

/-- The try/except structure of main: on success, write the full report and
return exit status 0; on a structural failure, write the minimal report with
the recommended mode optimized and the default score 50, and return exit
status 1. -/
def main_run : DetectOutcome → ReportArtifact × Int
  | .ok caps comp =>
    (.full { capabilities := caps
             compilation_flags := comp
             optimized_cflags := optimized_cflags comp
             optimized_ldflags := optimized_ldflags comp
             make_variables := comp.make_flags }, 0)
  | .failure e =>
    (.minimal { error := e
                recommended_mode := "optimized"
                optimization_score := 50 }, 1)

/-- A CPU record with every feature flag cleared and zero topology, used as a
base point for concrete evaluations. -/
def zeroCpu : CPUCapabilities :=
  { model_name := "Generic CPU"
    architecture := "x86_64"
    cores := 0
    threads := 0
    base_freq_mhz := 0
    max_freq_mhz := 0
    cache_l1d := "unknown"
    cache_l1i := "unknown"
    cache_l2 := "unknown"
    cache_l3 := "unknown"
    has_sse42 := false
    has_avx := false
    has_avx2 := false
    has_avx512f := false
    has_avx512dq := false
    has_avx512bw := false
    has_avx512vl := false
    has_aes_ni := false
    has_sha_ni := false
    has_rdrand := false
    has_rdseed := false
    has_vmx := false
    has_svm := false
    has_ept := false
    has_npt := false
    has_tsx := false
    has_bmi1 := false
    has_bmi2 := false
    has_adx := false
    has_clflushopt := false
    has_clwb := false
    cpu_generation := "Unknown"
    microarchitecture := "Unknown" }

/-- A memory record with no optimization-relevant capability. -/
def zeroMemory : MemoryInfo :=
  { total_gb := 8
    available_gb := 4
    speed_mhz := 3200
    type := "DDR4"
    channels := 2
    hugepages_2mb_supported := false
    hugepages_1gb_supported := false
    hugepages_2mb_available := 0
    hugepages_1gb_available := 0
    numa_nodes := 1
    numa_enabled := false
    estimated_bandwidth_gbps := 51.2 }

/-- An AMD CPU with SVM and NPT set (and nothing else), the concrete input on
which the EPT/NPT wording of the specification is tested. -/
def amdNptCpu : CPUCapabilities :=
  { zeroCpu with model_name := "AMD Ryzen", has_svm := true, has_npt := true }

/-- A degenerate two-core CPU with every capability flag cleared. -/
def degenerateCpu : CPUCapabilities :=
  { zeroCpu with cores := 2, threads := 4 }

/-- An AVX-512F-capable, eight-core, AES-NI CPU, the concrete input of the
flag-order property. -/
def avx512Cpu : CPUCapabilities :=
  { zeroCpu with
    cores := 8
    threads := 16
    has_avx := true
    has_avx2 := true
    has_avx512f := true
    has_aes_ni := true }

/-- A fully featured Intel CPU reaching the top score band. -/
def fullCpu : CPUCapabilities :=
  { zeroCpu with
    cores := 16
    threads := 24
    has_sse42 := true
    has_avx := true
    has_avx2 := true
    has_avx512f := true
    has_avx512dq := true
    has_aes_ni := true
    has_bmi1 := true
    has_bmi2 := true
    has_vmx := true
    has_ept := true
    cpu_generation := "12th Gen (Alder Lake)" }

/-- The CPU flag list accompanying fullCpu, carrying the vpid and pdpe1gb
tokens read directly by detect_virtualization. -/
def fullCpuFlags : List String :=
  ["vmx", "ept", "vpid", "pdpe1gb", "avx512f", "aes"]

/-- A 64 GB memory record with 1 GB huge-page support. -/
def bigMemory : MemoryInfo :=
  { zeroMemory with
    total_gb := 64
    available_gb := 48
    hugepages_1gb_supported := true
    hugepages_2mb_supported := true }

/-- A gen-4 x4 NVMe device as detect_storage would build it. -/
def nvmeGen4Device : StorageDevice :=
  mk_storage_device "/dev/nvme0n1" "Samsung SSD 980 PRO" 931.5
    (some "16.0 GT/s PCIe") (some "x4") (some 1023) (some 8)

/-- A second NVMe device on a gen-3 x4 link. -/
def nvmeGen3Device : StorageDevice :=
  mk_storage_device "/dev/nvme1n1" "WD Black SN750" 465.8
    (some "8.0 GT/s PCIe") (some "x4") (some 1023) (some 8)

theorem calc_fst (cpu : CPUCapabilities) (virt : VirtualizationCapabilities)
    (storage : List StorageDevice) (memory : MemoryInfo) :
    (calculate_optimization_score cpu virt storage memory).1 =
      optScoreRaw cpu virt storage memory := by
  unfold calculate_optimization_score
  dsimp only
  split <;> try rfl
  split <;> rfl

theorem optScoreRaw_eq (cpu : CPUCapabilities) (virt : VirtualizationCapabilities)
    (storage : List StorageDevice) (memory : MemoryInfo) :
    optScoreRaw cpu virt storage memory =
      cpuPoints cpu + virtPoints virt + storagePoints storage + memoryPoints memory := by
  unfold optScoreRaw cpuPoints virtPoints storagePoints memoryPoints
  ring

theorem cpuPoints_le_set_avx512f (c : CPUCapabilities) :
    cpuPoints c ≤ cpuPoints { c with has_avx512f := true } := by
  dsimp only [cpuPoints]
  split_ifs <;> first | omega | simp_all

theorem cpuPoints_le_set_avx2 (c : CPUCapabilities) :
    cpuPoints c ≤ cpuPoints { c with has_avx2 := true } := by
  dsimp only [cpuPoints]
  split_ifs <;> first | omega | simp_all

theorem cpuPoints_le_set_avx (c : CPUCapabilities) :
    cpuPoints c ≤ cpuPoints { c with has_avx := true } := by
  dsimp only [cpuPoints]
  split_ifs <;> first | omega | simp_all

theorem cpuPoints_le_set_aes (c : CPUCapabilities) :
    cpuPoints c ≤ cpuPoints { c with has_aes_ni := true } := by
  dsimp only [cpuPoints]
  split_ifs <;> first | omega | simp_all

theorem cpuPoints_le_set_bmi1 (c : CPUCapabilities) :
    cpuPoints c ≤ cpuPoints { c with has_bmi1 := true } := by
  dsimp only [cpuPoints]
  split_ifs <;> first | omega | simp_all

theorem cpuPoints_le_set_bmi2 (c : CPUCapabilities) :
    cpuPoints c ≤ cpuPoints { c with has_bmi2 := true } := by
  dsimp only [cpuPoints]
  split_ifs <;> first | omega | simp_all

theorem virtPoints_le_set_enabled (v : VirtualizationCapabilities) :
    virtPoints v ≤ virtPoints { v with enabled := true } := by
  dsimp only [virtPoints]
  split_ifs <;> first | omega | simp_all

theorem virtPoints_le_set_ept (v : VirtualizationCapabilities) :
    virtPoints v ≤ virtPoints { v with ept_supported := true } := by
  dsimp only [virtPoints]
  split_ifs <;> first | omega | simp_all

theorem virtPoints_le_set_ept1gb (v : VirtualizationCapabilities) :
    virtPoints v ≤ virtPoints { v with ept_1gb_pages := true } := by
  dsimp only [virtPoints]
  split_ifs <;> first | omega | simp_all

theorem virtPoints_le_set_vpid (v : VirtualizationCapabilities) :
    virtPoints v ≤ virtPoints { v with vpid_supported := true } := by
  dsimp only [virtPoints]
  split_ifs <;> first | omega | simp_all

theorem memoryPoints_le_set_huge1gb (m : MemoryInfo) :
    memoryPoints m ≤ memoryPoints { m with hugepages_1gb_supported := true } := by
  dsimp only [memoryPoints]
  split_ifs <;> first | omega | simp_all

/-- C4: the optimization score is monotone in the capability flags: setting
any single boolean capability flag of the CPU, virtualization, or memory
record to true, holding every other input field fixed, never decreases the
computed score. -/
theorem C4_score_monotone (c : CPUCapabilities) (v : VirtualizationCapabilities)
    (s : List StorageDevice) (m : MemoryInfo) :
    ((calculate_optimization_score c v s m).1 ≤
      (calculate_optimization_score { c with has_sse42 := true } v s m).1) ∧
    ((calculate_optimization_score c v s m).1 ≤
      (calculate_optimization_score { c with has_avx := true } v s m).1) ∧
    ((calculate_optimization_score c v s m).1 ≤
      (calculate_optimization_score { c with has_avx2 := true } v s m).1) ∧
    ((calculate_optimization_score c v s m).1 ≤
      (calculate_optimization_score { c with has_avx512f := true } v s m).1) ∧
    ((calculate_optimization_score c v s m).1 ≤
      (calculate_optimization_score { c with has_avx512dq := true } v s m).1) ∧
    ((calculate_optimization_score c v s m).1 ≤
      (calculate_optimization_score { c with has_avx512bw := true } v s m).1) ∧
    ((calculate_optimization_score c v s m).1 ≤
      (calculate_optimization_score { c with has_avx512vl := true } v s m).1) ∧
    ((calculate_optimization_score c v s m).1 ≤
      (calculate_optimization_score { c with has_aes_ni := true } v s m).1) ∧
    ((calculate_optimization_score c v s m).1 ≤
      (calculate_optimization_score { c with has_sha_ni := true } v s m).1) ∧
    ((calculate_optimization_score c v s m).1 ≤
      (calculate_optimization_score { c with has_rdrand := true } v s m).1) ∧
    ((calculate_optimization_score c v s m).1 ≤
      (calculate_optimization_score { c with has_rdseed := true } v s m).1) ∧
    ((calculate_optimization_score c v s m).1 ≤
      (calculate_optimization_score { c with has_vmx := true } v s m).1) ∧
    ((calculate_optimization_score c v s m).1 ≤
      (calculate_optimization_score { c with has_svm := true } v s m).1) ∧
    ((calculate_optimization_score c v s m).1 ≤
      (calculate_optimization_score { c with has_ept := true } v s m).1) ∧
    ((calculate_optimization_score c v s m).1 ≤
      (calculate_optimization_score { c with has_npt := true } v s m).1) ∧
    ((calculate_optimization_score c v s m).1 ≤
      (calculate_optimization_score { c with has_tsx := true } v s m).1) ∧
    ((calculate_optimization_score c v s m).1 ≤
      (calculate_optimization_score { c with has_bmi1 := true } v s m).1) ∧
    ((calculate_optimization_score c v s m).1 ≤
      (calculate_optimization_score { c with has_bmi2 := true } v s m).1) ∧
    ((calculate_optimization_score c v s m).1 ≤
      (calculate_optimization_score { c with has_adx := true } v s m).1) ∧
    ((calculate_optimization_score c v s m).1 ≤
      (calculate_optimization_score { c with has_clflushopt := true } v s m).1) ∧
    ((calculate_optimization_score c v s m).1 ≤
      (calculate_optimization_score { c with has_clwb := true } v s m).1) ∧
    ((calculate_optimization_score c v s m).1 ≤
      (calculate_optimization_score c { v with enabled := true } s m).1) ∧
    ((calculate_optimization_score c v s m).1 ≤
      (calculate_optimization_score c { v with ept_supported := true } s m).1) ∧
    ((calculate_optimization_score c v s m).1 ≤
      (calculate_optimization_score c { v with vpid_supported := true } s m).1) ∧
    ((calculate_optimization_score c v s m).1 ≤
      (calculate_optimization_score c { v with ept_1gb_pages := true } s m).1) ∧
    ((calculate_optimization_score c v s m).1 ≤
      (calculate_optimization_score c { v with ept_2mb_pages := true } s m).1) ∧
    ((calculate_optimization_score c v s m).1 ≤
      (calculate_optimization_score c { v with ept_ad_bits := true } s m).1) ∧
    ((calculate_optimization_score c v s m).1 ≤
      (calculate_optimization_score c { v with unrestricted_guest := true } s m).1) ∧
    ((calculate_optimization_score c v s m).1 ≤
      (calculate_optimization_score c { v with posted_interrupts := true } s m).1) ∧
    ((calculate_optimization_score c v s m).1 ≤
      (calculate_optimization_score c { v with vmfunc_supported := true } s m).1) ∧
    ((calculate_optimization_score c v s m).1 ≤
      (calculate_optimization_score c { v with npt_supported := true } s m).1) ∧
    ((calculate_optimization_score c v s m).1 ≤
      (calculate_optimization_score c { v with decode_assists := true } s m).1) ∧
    ((calculate_optimization_score c v s m).1 ≤
      (calculate_optimization_score c { v with flush_by_asid := true } s m).1) ∧
    ((calculate_optimization_score c v s m).1 ≤
      (calculate_optimization_score c v s { m with hugepages_2mb_supported := true }).1) ∧
    ((calculate_optimization_score c v s m).1 ≤
      (calculate_optimization_score c v s { m with hugepages_1gb_supported := true }).1) ∧
    ((calculate_optimization_score c v s m).1 ≤
      (calculate_optimization_score c v s { m with numa_enabled := true }).1) := by
  refine ⟨le_of_eq rfl, ?_, ?_, ?_, le_of_eq rfl, le_of_eq rfl, le_of_eq rfl,
    ?_, le_of_eq rfl, le_of_eq rfl, le_of_eq rfl, le_of_eq rfl, le_of_eq rfl,
    le_of_eq rfl, le_of_eq rfl, le_of_eq rfl, ?_, ?_, le_of_eq rfl,
    le_of_eq rfl, le_of_eq rfl, ?_, ?_, ?_, ?_, le_of_eq rfl, le_of_eq rfl,
    le_of_eq rfl, le_of_eq rfl, le_of_eq rfl, le_of_eq rfl, le_of_eq rfl,
    le_of_eq rfl, le_of_eq rfl, ?_, le_of_eq rfl⟩
  · rw [calc_fst, calc_fst, optScoreRaw_eq, optScoreRaw_eq]
    have h := cpuPoints_le_set_avx c
    linarith
  · rw [calc_fst, calc_fst, optScoreRaw_eq, optScoreRaw_eq]
    have h := cpuPoints_le_set_avx2 c
    linarith
  · rw [calc_fst, calc_fst, optScoreRaw_eq, optScoreRaw_eq]
    have h := cpuPoints_le_set_avx512f c
    linarith
  · rw [calc_fst, calc_fst, optScoreRaw_eq, optScoreRaw_eq]
    have h := cpuPoints_le_set_aes c
    linarith
  · rw [calc_fst, calc_fst, optScoreRaw_eq, optScoreRaw_eq]
    have h := cpuPoints_le_set_bmi1 c
    linarith
  · rw [calc_fst, calc_fst, optScoreRaw_eq, optScoreRaw_eq]
    have h := cpuPoints_le_set_bmi2 c
    linarith
  · rw [calc_fst, calc_fst, optScoreRaw_eq, optScoreRaw_eq]
    have h := virtPoints_le_set_enabled v
    linarith
  · rw [calc_fst, calc_fst, optScoreRaw_eq, optScoreRaw_eq]
    have h := virtPoints_le_set_ept v
    linarith
  · rw [calc_fst, calc_fst, optScoreRaw_eq, optScoreRaw_eq]
    have h := virtPoints_le_set_vpid v
    linarith
  · rw [calc_fst, calc_fst, optScoreRaw_eq, optScoreRaw_eq]
    have h := virtPoints_le_set_ept1gb v
    linarith
  · rw [calc_fst, calc_fst, optScoreRaw_eq, optScoreRaw_eq]
    have h := memoryPoints_le_set_huge1gb m
    linarith

theorem decode_link_speed_ne_zero (s : String) : decode_link_speed s ≠ some 0 := by
  unfold decode_link_speed
  split_ifs <;> simp

theorem nvme_max_bandwidth_isSome (g l : Option Int) :
    (nvme_max_bandwidth g l).isSome =
      (pyTruthy g && pyTruthy l) := by
  unfold nvme_max_bandwidth
  split_ifs with h <;> simp_all

/-- C2 counterexample: on an AMD-V CPU with NPT the scorer credits only the
10 enabled points; the EPT-or-NPT reading of the specification would credit
20, so the claim fails at this input. -/
theorem C2_counterexample :
    (detect_virtualization [] amdNptCpu).enabled = true ∧
    (detect_virtualization [] amdNptCpu).npt_supported = true ∧
    virtPoints (detect_virtualization [] amdNptCpu) = 10 ∧
    specVirtPoints (detect_virtualization [] amdNptCpu) = 20 ∧
    virtPoints (detect_virtualization [] amdNptCpu) ≠
      specVirtPoints (detect_virtualization [] amdNptCpu) := by
  refine ⟨rfl, rfl, by decide, by decide, by decide⟩

/-- C2 amended: the virtualization category awards 10 points when enabled, 10
points for ept_supported only (never for NPT), 5 for EPT 1GB pages and 5 for
VPID; the score decomposes accordingly, and an AMD-V system, with or without
NPT, receives exactly the 10 enabled points in this category. -/
theorem C2_virtualization_scoring (cpuFlags : List String)
    (cpu : CPUCapabilities) (storage : List StorageDevice) (memory : MemoryInfo) :
    optScoreRaw cpu (detect_virtualization cpuFlags cpu) storage memory =
      cpuPoints cpu + virtPoints (detect_virtualization cpuFlags cpu)
        + storagePoints storage + memoryPoints memory ∧
    (cpu.has_vmx = false → cpu.has_svm = true →
      virtPoints (detect_virtualization cpuFlags cpu) = 10) := by
  refine ⟨optScoreRaw_eq cpu (detect_virtualization cpuFlags cpu) storage memory, ?_⟩
  intro hv hs
  simp [detect_virtualization, virtPoints, hv, hs]

/-- C2 witness: the amended statement evaluated at the concrete AMD CPU with
NPT shows the virtualization category contributes exactly 10. -/
theorem C2_virtualization_scoring_witness :
    virtPoints (detect_virtualization [] amdNptCpu) = 10 :=
  (C2_virtualization_scoring [] amdNptCpu [] zeroMemory).2 (by decide) (by decide)

/-- C3 counterexample: the NVMe link decoder returns none on a 5.0 GT/s speed
string, not generation 2 as the claim states. -/
theorem C3_counterexample :
    decode_link_speed "5.0 GT/s PCIe" = none ∧
    (detect_nvme_pcie (some "5.0 GT/s PCIe") (some "x4")).1 ≠ some 2 := by
  refine ⟨by decide, by decide⟩

/-- C3 amended: the NVMe decoder maps the 8.0, 16.0 and 32.0 GT/s tokens to
generations 3, 4 and 5, maps a 5.0 GT/s speed to none (the gen-2 mapping
exists only in the GPU path, shown here on decode_gpu_link_speed), extracts
the lane count from an x-digits pattern, and an absent sysfs attribute yields
none for that field. -/
theorem C3_nvme_link_decoding :
    (∀ w : Option String, (detect_nvme_pcie none w).1 = none) ∧
    (∀ s : Option String, (detect_nvme_pcie s none).2 = none) ∧
    decode_link_speed "8.0 GT/s PCIe" = some 3 ∧
    decode_link_speed "16.0 GT/s PCIe" = some 4 ∧
    decode_link_speed "32.0 GT/s PCIe" = some 5 ∧
    decode_link_speed "5.0 GT/s PCIe" = none ∧
    decode_gpu_link_speed "5.0 GT/s PCIe" = some 2 ∧
    decode_link_width "x4" = some 4 ∧
    decode_link_width "x16" = some 16 ∧
    decode_link_width "16" = none := by
  refine ⟨fun w => rfl, fun s => ?_, by decide, by decide, by decide,
    by decide, by decide, by decide, by decide, by decide⟩
  cases s <;> rfl

/-- C5 counterexample: an NVMe device whose width attribute reads x0 has both
pcie_generation and pcie_lanes defined yet no max_bandwidth_mbps, because the
Python truthiness test treats a 0 lane count as falsy; so defined-iff-defined
fails at this input. -/
theorem C5_counterexample :
    (mk_storage_device "/dev/nvme0n1" "TestDisk" 100
      (some "8.0 GT/s PCIe") (some "x0") none none).pcie_generation = some 3 ∧
    (mk_storage_device "/dev/nvme0n1" "TestDisk" 100
      (some "8.0 GT/s PCIe") (some "x0") none none).pcie_lanes = some 0 ∧
    (mk_storage_device "/dev/nvme0n1" "TestDisk" 100
      (some "8.0 GT/s PCIe") (some "x0") none none).max_bandwidth_mbps = none := by
  refine ⟨by decide, by decide, by decide⟩

/-- C5 amended: for every detected NVMe device, max_bandwidth_mbps is defined
iff pcie_generation and pcie_lanes are both defined and the lane count is
nonzero (the decoded generation is never zero); when defined it equals the
table value for the generation times the lane count; the (gen 4, 4 lanes)
pair gives exactly 7876 MB/s and an undefined generation gives none. -/
theorem C5_bandwidth_invariant (nm mdl : String) (sz : Rat)
    (speedFile widthFile : Option String) (qd nq : Option Int) :
    ((mk_storage_device nm mdl sz speedFile widthFile qd nq).max_bandwidth_mbps.isSome ↔
      (mk_storage_device nm mdl sz speedFile widthFile qd nq).pcie_generation.isSome ∧
      (mk_storage_device nm mdl sz speedFile widthFile qd nq).pcie_lanes.isSome ∧
      (mk_storage_device nm mdl sz speedFile widthFile qd nq).pcie_lanes ≠ some 0) ∧
    (∀ g l : Int,
      (mk_storage_device nm mdl sz speedFile widthFile qd nq).pcie_generation = some g →
      (mk_storage_device nm mdl sz speedFile widthFile qd nq).pcie_lanes = some l →
      l ≠ 0 →
      (mk_storage_device nm mdl sz speedFile widthFile qd nq).max_bandwidth_mbps =
        some (bandwidthTable g * l)) ∧
    nvme_max_bandwidth (some 4) (some 4) = some 7876 ∧
    nvme_max_bandwidth none (some 4) = none := by
  have hg0 : (detect_nvme_pcie speedFile widthFile).1 ≠ some 0 := by
    unfold detect_nvme_pcie
    cases speedFile with
    | none => simp
    | some s => simpa using decode_link_speed_ne_zero s
  unfold mk_storage_device
  dsimp only
  refine ⟨?_, ?_, by decide, by decide⟩
  · cases hg : (detect_nvme_pcie speedFile widthFile).1 with
    | none => simp [nvme_max_bandwidth, pyTruthy]
    | some gv =>
      have hgv : gv ≠ 0 := by
        intro h
        exact hg0 (h ▸ hg)
      cases hl : (detect_nvme_pcie speedFile widthFile).2 with
      | none => simp [hg, hl, nvme_max_bandwidth, pyTruthy]
      | some lv =>
        by_cases hlv : lv = 0 <;>
          simp_all [nvme_max_bandwidth, pyTruthy]
  · intro g l hg hl hlne
    have hgne : g ≠ 0 := by
      intro h
      exact hg0 (h ▸ hg)
    simp [hg, hl, nvme_max_bandwidth, pyTruthy, hlne, hgne]

/-- C5 witness: the amended statement applied to a gen-4 x4 device yields the
7876 MB/s bandwidth. -/
theorem C5_bandwidth_invariant_witness :
    (mk_storage_device "/dev/nvme0n1" "Samsung SSD 980 PRO" 931.5
      (some "16.0 GT/s PCIe") (some "x4") (some 1023) (some 8)).max_bandwidth_mbps =
      some (bandwidthTable 4 * 4) :=
  (C5_bandwidth_invariant "/dev/nvme0n1" "Samsung SSD 980 PRO" 931.5
    (some "16.0 GT/s PCIe") (some "x4") (some 1023) (some 8)).2.1 4 4
    (by decide) (by decide) (by decide)

/-- C1: for every capability input, the decision thresholds of the scorer
hold: score at least 70 gives mode optimized with improvement (30, 45); score
in [50, 70) gives mode optimized with improvement (20, 35); score below 50
gives mode vanilla with improvement (10, 20). -/
theorem C1_decision_thresholds (cpu : CPUCapabilities)
    (virt : VirtualizationCapabilities) (storage : List StorageDevice)
    (memory : MemoryInfo) :
    ((calculate_optimization_score cpu virt storage memory).1 ≥ 70 →
      (calculate_optimization_score cpu virt storage memory).2.1 = "optimized" ∧
      (calculate_optimization_score cpu virt storage memory).2.2 = (30, 45)) ∧
    (50 ≤ (calculate_optimization_score cpu virt storage memory).1 ∧
      (calculate_optimization_score cpu virt storage memory).1 < 70 →
      (calculate_optimization_score cpu virt storage memory).2.1 = "optimized" ∧
      (calculate_optimization_score cpu virt storage memory).2.2 = (20, 35)) ∧
    ((calculate_optimization_score cpu virt storage memory).1 < 50 →
      (calculate_optimization_score cpu virt storage memory).2.1 = "vanilla" ∧
      (calculate_optimization_score cpu virt storage memory).2.2 = (10, 20)) := by
  unfold calculate_optimization_score
  dsimp only
  set sc := optScoreRaw cpu virt storage memory with hsc
  split_ifs with h1 h2 <;>
    refine ⟨fun hge => ?_, fun hmid => ?_, fun hlt => ?_⟩ <;>
    simp_all <;> omega

/-- C1 witness: at the fully featured concrete input the score reaches the
top band, so the recommendation is optimized with improvement (30, 45). -/
theorem C1_decision_thresholds_witness :
    (calculate_optimization_score fullCpu
      (detect_virtualization fullCpuFlags fullCpu)
      [nvmeGen4Device, nvmeGen3Device] bigMemory).2.1 = "optimized" ∧
    (calculate_optimization_score fullCpu
      (detect_virtualization fullCpuFlags fullCpu)
      [nvmeGen4Device, nvmeGen3Device] bigMemory).2.2 = (30, 45) :=
  (C1_decision_thresholds fullCpu (detect_virtualization fullCpuFlags fullCpu)
    [nvmeGen4Device, nvmeGen3Device] bigMemory).1 (by decide)

/-- C6: the flattened optimized_cflags string is the space-join of the base
optimization level, the architecture flags and the feature flags in that
order, and for an AVX-512F-capable, 8-core, AES-NI CPU the token list
contains the native, avx512f, avx512dq and fma architecture flags, then the
aes flag, then the five unconditional optimization flags, then the LTO flag,
in exactly that relative order. -/
theorem C6_cflags_order (cpu : CPUCapabilities)
    (virt : VirtualizationCapabilities) (memory : MemoryInfo)
    (h512 : cpu.has_avx512f = true) (haes : cpu.has_aes_ni = true)
    (hc : cpu.cores = 8) :
    optimized_cflags (generate_compilation_flags cpu virt memory) =
      String.intercalate " "
        ((generate_compilation_flags cpu virt memory).base_optimization ::
          ((generate_compilation_flags cpu virt memory).architecture_flags ++
            (generate_compilation_flags cpu virt memory).feature_flags)) ∧
    List.Sublist
      ["-march=native", "-mtune=native", "-mavx512f", "-mavx512dq", "-mfma",
       "-maes", "-ffast-math", "-funroll-loops", "-fomit-frame-pointer",
       "-fno-strict-aliasing", "-fno-common", "-flto"]
      (cflagsTokens (generate_compilation_flags cpu virt memory)) := by
  refine ⟨rfl, ?_⟩
  unfold generate_compilation_flags cflagsTokens
  cases hb : cpu.has_bmi2 <;> cases hsha : cpu.has_sha_ni <;>
    simp [h512, haes, hc, hb, hsha] <;> decide

/-- C6 witness: the sublist property at the concrete AVX-512 CPU. -/
theorem C6_cflags_order_witness :
    List.Sublist
      ["-march=native", "-mtune=native", "-mavx512f", "-mavx512dq", "-mfma",
       "-maes", "-ffast-math", "-funroll-loops", "-fomit-frame-pointer",
       "-fno-strict-aliasing", "-fno-common", "-flto"]
      (cflagsTokens (generate_compilation_flags avx512Cpu
        (detect_virtualization [] avx512Cpu) zeroMemory)) :=
  (C6_cflags_order avx512Cpu (detect_virtualization [] avx512Cpu) zeroMemory
    rfl rfl rfl).2

/-- C7: the all-false degenerate capability input (no SIMD, no
virtualization, zero NVMe devices, RAM below 32 GB, no 1 GB huge pages,
fewer than 4 cores, and no crypto or BMI extensions) yields score 0, mode
vanilla, improvement (10, 20), and a plan with conservative base level, only
the generic-tune architecture flag, exactly the five unconditional feature
flags (no AES, no BMI, no LTO), and no link flags. -/
theorem C7_degenerate_case (cpuFlags : List String) (cpu : CPUCapabilities)
    (storage : List StorageDevice) (memory : MemoryInfo)
    (h1 : cpu.has_avx512f = false) (h2 : cpu.has_avx2 = false)
    (h3 : cpu.has_avx = false) (h4 : cpu.has_aes_ni = false)
    (h5 : cpu.has_bmi2 = false) (h6 : cpu.has_sha_ni = false)
    (h7 : cpu.has_vmx = false) (h8 : cpu.has_svm = false)
    (h9 : cpu.cores < 4) (h10 : nvmeCount storage = 0)
    (h11 : memory.total_gb < 32) (h12 : memory.hugepages_1gb_supported = false) :
    calculate_optimization_score cpu (detect_virtualization cpuFlags cpu)
        storage memory = (0, "vanilla", (10, 20)) ∧
    (generate_compilation_flags cpu (detect_virtualization cpuFlags cpu)
        memory).base_optimization = "-O2" ∧
    (generate_compilation_flags cpu (detect_virtualization cpuFlags cpu)
        memory).architecture_flags = ["-mtune=generic"] ∧
    (generate_compilation_flags cpu (detect_virtualization cpuFlags cpu)
        memory).feature_flags =
      ["-ffast-math", "-funroll-loops", "-fomit-frame-pointer",
       "-fno-strict-aliasing", "-fno-common"] ∧
    (generate_compilation_flags cpu (detect_virtualization cpuFlags cpu)
        memory).link_flags = [] := by
  have hc8 : ¬(cpu.cores ≥ 8) := by omega
  have hc4 : ¬(cpu.cores ≥ 4) := by omega
  have hm64 : ¬(memory.total_gb ≥ 64) := by
    intro h
    linarith
  have hm32 : ¬(memory.total_gb ≥ 32) := by
    intro h
    linarith
  refine ⟨?_, ?_, ?_, ?_, ?_⟩
  · unfold calculate_optimization_score optScoreRaw
    simp [detect_virtualization, h1, h2, h3, h4, h5, h7, h8, h10, h12,
      hc8, hc4, hm64, hm32]
  · unfold generate_compilation_flags
    simp [h1, h2]
  · unfold generate_compilation_flags
    simp [h1, h2]
  · unfold generate_compilation_flags
    simp [h1, h2, h4, h5, h6, hc4]
  · unfold generate_compilation_flags
    simp [hc4]

/-- C7 witness: the degenerate two-core CPU with empty storage and small
memory scores 0 and is recommended vanilla with improvement (10, 20). -/
theorem C7_degenerate_case_witness :
    calculate_optimization_score degenerateCpu
      (detect_virtualization [] degenerateCpu) [] zeroMemory =
      (0, "vanilla", (10, 20)) :=
  (C7_degenerate_case [] degenerateCpu [] zeroMemory rfl rfl rfl rfl rfl rfl
    rfl rfl (by decide) rfl (by decide) rfl).1

/-- C8: the derived virtualization record has exactly one technology variant
among Intel VT-x, AMD-V and None, with VMX taking priority over SVM; under
AMD-V every Intel-specific field is false, and under Intel VT-x every
AMD-specific field is false. -/
theorem C8_technology_exclusivity (cpuFlags : List String)
    (cpu : CPUCapabilities) :
    ((detect_virtualization cpuFlags cpu).technology = "Intel VT-x" ∨
      (detect_virtualization cpuFlags cpu).technology = "AMD-V" ∨
      (detect_virtualization cpuFlags cpu).technology = "None") ∧
    (cpu.has_vmx = true →
      (detect_virtualization cpuFlags cpu).technology = "Intel VT-x") ∧
    (cpu.has_vmx = false → cpu.has_svm = true →
      (detect_virtualization cpuFlags cpu).technology = "AMD-V") ∧
    (cpu.has_vmx = false → cpu.has_svm = false →
      (detect_virtualization cpuFlags cpu).technology = "None") ∧
    ((detect_virtualization cpuFlags cpu).technology = "AMD-V" →
      (detect_virtualization cpuFlags cpu).ept_supported = false ∧
      (detect_virtualization cpuFlags cpu).vpid_supported = false ∧
      (detect_virtualization cpuFlags cpu).ept_1gb_pages = false ∧
      (detect_virtualization cpuFlags cpu).ept_2mb_pages = false ∧
      (detect_virtualization cpuFlags cpu).ept_ad_bits = false ∧
      (detect_virtualization cpuFlags cpu).unrestricted_guest = false ∧
      (detect_virtualization cpuFlags cpu).posted_interrupts = false ∧
      (detect_virtualization cpuFlags cpu).vmfunc_supported = false) ∧
    ((detect_virtualization cpuFlags cpu).technology = "Intel VT-x" →
      (detect_virtualization cpuFlags cpu).npt_supported = false ∧
      (detect_virtualization cpuFlags cpu).decode_assists = false ∧
      (detect_virtualization cpuFlags cpu).flush_by_asid = false) := by
  cases hv : cpu.has_vmx <;> cases hs : cpu.has_svm <;>
    simp [detect_virtualization, hv, hs]

/-- C8 witness: at the AMD CPU with NPT, the technology is AMD-V and every
Intel-specific field is false. -/
theorem C8_technology_exclusivity_witness :
    (detect_virtualization [] amdNptCpu).technology = "AMD-V" :=
  ((C8_technology_exclusivity [] amdNptCpu).2.2.1 (by decide) (by decide))

/-- C9: a structural top-level detection failure still produces a well-formed
minimal artifact recommending mode optimized with the default score 50, with
exit status 1; the success path exits 0; and the exit status is 1 exactly on
the structural failure outcome. -/
theorem C9_structural_failure_fallback :
    (∀ e : String, main_run (.failure e) =
      (.minimal { error := e, recommended_mode := "optimized",
                  optimization_score := 50 }, 1)) ∧
    (∀ (caps : SystemCapabilities) (comp : CompilationFlags),
      (main_run (.ok caps comp)).2 = 0) ∧
    (∀ o : DetectOutcome, ((main_run o).2 = 1 ↔ ∃ e, o = .failure e)) := by
  refine ⟨fun e => rfl, fun caps comp => rfl, fun o => ?_⟩
  cases o with
  | ok caps comp => simp [main_run]
  | failure e => simp [main_run]

/-- C10: the optimization score, recommended mode and improvement range do
not depend on the GPU field, and the generated compilation flags and make
variables depend on neither the GPU field nor the storage list. -/
theorem C10_gpu_storage_noninterference (cpu : CPUCapabilities)
    (virt : VirtualizationCapabilities) (storage s1 s2 : List StorageDevice)
    (memory : MemoryInfo) (g1 g2 : Option GPUInfo) :
    ((mk_system_capabilities cpu virt storage memory g1).1.optimization_score =
      (mk_system_capabilities cpu virt storage memory g2).1.optimization_score ∧
     (mk_system_capabilities cpu virt storage memory g1).1.recommended_mode =
      (mk_system_capabilities cpu virt storage memory g2).1.recommended_mode ∧
     (mk_system_capabilities cpu virt storage memory g1).1.estimated_improvement_percent =
      (mk_system_capabilities cpu virt storage memory g2).1.estimated_improvement_percent) ∧
    (mk_system_capabilities cpu virt s1 memory g1).2 =
      (mk_system_capabilities cpu virt s2 memory g2).2 :=
  ⟨⟨rfl, rfl, rfl⟩, rfl⟩

